/-
  Verification of the PortLib campus-library client against its design spec.

  Shallow embedding of the derived-state computations, HTTP-client error
  normalization, dashboard data hook, auth store, and search hook.
  JavaScript runtime values that matter to the claims (undefined/null/NaN,
  truthiness, nullish coalescing) are modelled explicitly.  Local timestamps
  are modelled as integer milliseconds in local time with a fixed UTC offset
  (no DST transitions), so `setHours(0,0,0,0)` is flooring to a multiple of
  86400000 and `getHours` is `(t / 3600000) mod 24`.
-/
import Mathlib

namespace PortLib

/-! ## JavaScript value model -/

/-- Runtime value that may sit in a loosely-typed field (e.g. `borrow.fine`).
`num` carries a finite number (modelled as a rational); `nan` and `infinity`
are the non-finite numbers; other constructors cover the remaining primitive
shapes the dashboard code can meet. -/
inductive JsVal where
  | undefVal
  | nullv
  | num (x : ℚ)
  | nan
  | infinity
  | str (s : String)
  | boolv (b : Bool)
  deriving DecidableEq, Repr

/-- JavaScript `??`: the left operand unless it is `undefined` or `null`. -/
def jsNullishOr (a b : JsVal) : JsVal :=
  match a with
  | .undefVal => b
  | .nullv => b
  | v => v

/-- `Number.isFinite`: true exactly for finite numbers, with no coercion. -/
def jsIsFiniteNum : JsVal → Bool
  | .num _ => true
  | _ => false

/-- Numeric value of a `JsVal`, zero for non-numbers (used only where the
source has already guarded with `Number.isFinite`). -/
def jsNumVal : JsVal → ℚ
  | .num x => x
  | _ => 0

/-- JavaScript `||` on an optional string operand with a string fallback:
the left string when it is present and non-empty (truthy), else the
fallback. -/
def jsOrStr (a : Option String) (b : String) : String :=
  match a with
  | some s => if s = "" then b else s
  | none => b

/-! ## Local-time model and day arithmetic

`src/unnamed/part_001` (`calculateDaysLeft`, `greeting`) and
`src/unnamed/part_005` (`getDaysLeft`, `getDaysOverdue`). -/

def msPerDay : Int := 86400000

def msPerHour : Int := 3600000

/-- `d.setHours(0, 0, 0, 0)` on a local timestamp: floor to local midnight. -/
def midnightOf (t : Int) : Int := (t.fdiv msPerDay) * msPerDay

/-- `Math.ceil(a / 86400000)` for an integer millisecond difference `a`. -/
def ceilDivDay (a : Int) : Int := -((-a).fdiv msPerDay)

/-- `new Date(t).getHours()` in the fixed-offset local-time model. -/
def hourOfMs (t : Int) : Int := (t.fdiv msPerHour) % 24

/-- `calculateDaysLeft` from `src/unnamed/part_001` lines 151-159.
Both the due date and the current time are floored to local midnight; the
difference is divided by one day and ceiled.  The second argument models the
`new Date()` the source reads ambiently inside the callback. -/
def calculateDaysLeft (dueDate now : Int) : Int :=
  let today := midnightOf now
  let due := midnightOf dueDate
  let diffTime := due - today
  ceilDivDay diffTime

/-- `greeting` from `src/unnamed/part_001` lines 162-167.  The argument
models the `new Date()` the source reads ambiently inside the memo. -/
def greeting (now : Int) : String :=
  let hour := hourOfMs now
  if hour < 12 then "Good Morning"
  else if hour < 17 then "Good Afternoon"
  else "Good Evening"

/-- date-fns `differenceInCalendarDays`: difference of the two dates'
calendar-day indices (start-of-day to start-of-day). -/
def differenceInCalendarDays (a b : Int) : Int :=
  a.fdiv msPerDay - b.fdiv msPerDay

/-- `getDaysLeft` from `src/unnamed/part_005` lines 58-59:
`Math.max(0, differenceInCalendarDays(parseDate(dueDate), new Date()))`.
Parsing is upstream (`parseDate`); a valid due date is assumed, so the
function is modelled on the parsed timestamp. -/
def getDaysLeft (dueDate now : Int) : Int :=
  max 0 (differenceInCalendarDays dueDate now)

/-- `getDaysOverdue` from `src/unnamed/part_005` lines 60-61. -/
def getDaysOverdue (dueDate now : Int) : Int :=
  max 0 (differenceInCalendarDays now dueDate)

/-- Modelled from the spec wording for the days-left computation:
`daysLeft = ceil((dueDate_midnight - today_midnight) / 1 day)`.  Kept as a
separate definition so the source functions can be compared against it. -/
def daysLeftSpec (dueDate now : Int) : Int :=
  ceilDivDay (midnightOf dueDate - midnightOf now)

/-! ## Availability classification

`availabilityStyles` in `src/src/components/web/BookDetailView.tsx` lines
228-252 and `badgeClassByAvailability` in
`src/src/components/web/BookBrowsingPage.tsx` lines 74-83. -/

/-- ASCII lowering, the fragment of `String.prototype.toLowerCase` the
status strings exercise. -/
def jsToLower (s : String) : String := ⟨s.data.map Char.toLower⟩

/-- `String.prototype.includes`: substring containment. -/
def jsIncludes (hay needle : String) : Bool :=
  (List.range (hay.data.length + 1)).any
    (fun i => needle.data.isPrefixOf (hay.data.drop i))

inductive Availability3 where
  | available
  | checkedOut
  | onHold
  deriving DecidableEq, Repr

/-- Classification performed by `availabilityStyles` in BookDetailView:
`(book?.availability || "Available").toLowerCase()` then substring tests. -/
def availabilityClassDetail (availability : Option String) : Availability3 :=
  let status := jsToLower (jsOrStr availability "Available")
  if jsIncludes status "available" then .available
  else if jsIncludes status "checked" then .checkedOut
  else .onHold

/-- Canonical label attached by `availabilityStyles` (BookDetailView renders
this label, not the raw status string). -/
def availabilityLabelDetail (availability : Option String) : String :=
  match availabilityClassDetail availability with
  | .available => "Available"
  | .checkedOut => "Checked Out"
  | .onHold => "On Hold"

/-- `badgeClassByAvailability` in BookBrowsingPage:
`(availability || "").toLowerCase()` then substring tests (the return value
is a CSS class; the three classes are identified with `Availability3`). -/
def badgeClassByAvailability (availability : Option String) : Availability3 :=
  let status := jsToLower (jsOrStr availability "")
  if jsIncludes status "available" then .available
  else if jsIncludes status "checked" then .checkedOut
  else .onHold

/-- The text BookBrowsingPage renders next to the badge (line 225
`<span>{book.availability}</span>`): the raw status, empty when absent. -/
def browseDisplayedLabel (availability : Option String) : String :=
  availability.getD ""

/-- Modelled from the spec wording for availability classification:
case-insensitive substring match on the raw status, with missing, empty and
unmatched statuses all defaulting to on-hold. -/
def classifySpec (availability : Option String) : Availability3 :=
  let low := jsToLower (availability.getD "")
  if jsIncludes low "available" then .available
  else if jsIncludes low "checked" then .checkedOut
  else .onHold

/-! ## HTTP client error normalization

`handleApiError` and `apiClient.get` in `src/src/services/borrowService.ts`
(the apiClient part of that file) lines 118-165. -/

/-- Per-field error map carried on API error bodies. -/
abbrev FieldErrors := List (String × List String)

/-- The normalized error shape `handleApiError` returns. -/
structure ApiError where
  message : String
  errors : Option FieldErrors
  statusCode : Option Nat
  deriving DecidableEq, Repr

/-- A thrown JavaScript value as `handleApiError` discriminates it:
an `ApiClientError` instance, some other `Error` instance (carrying its own
message, e.g. the TypeError a failed `fetch` rejects with), or a non-Error
value. -/
inductive JsErr where
  | apiClientError (message : String) (statusCode : Option Nat)
      (errors : Option FieldErrors)
  | errorObj (message : String)
  | nonError
  deriving DecidableEq, Repr

/-- `handleApiError` lines 118-136: `ApiClientError` fields pass through;
another `Error` keeps its own message unless it is empty (`||` fallback);
anything else gets the generic message. -/
def handleApiError : JsErr → ApiError
  | .apiClientError m code errs => ⟨m, errs, code⟩
  | .errorObj m =>
      ⟨if m = "" then "An unexpected error occurred" else m, none, none⟩
  | .nonError => ⟨"An unexpected error occurred", none, none⟩

/-- Outcome of `response.json().catch(...)` on an error body: a parsed JSON
object (whose `message` and `errors` fields may be absent), or a parse
failure. -/
inductive BodyParse where
  | parsed (message : Option String) (errors : Option FieldErrors)
  | unparseable
  deriving DecidableEq, Repr

/-- Outcome of the underlying `fetch` call: rejection with no response
(transport failure), or a response with its `ok` flag, status and error
body. -/
inductive FetchOutcome where
  | netFail (e : JsErr)
  | resp (ok : Bool) (status : Nat) (body : BodyParse)
  deriving DecidableEq, Repr

/-- Result of `apiClient.get`: resolves, or throws a JavaScript value. -/
inductive GetOutcome where
  | success
  | thrown (e : JsErr)
  deriving DecidableEq, Repr

/-- `apiClient.get` lines 145-165.  A `fetch` rejection propagates unchanged
(there is no try/catch around it).  On a non-ok response the error body is
parsed with `{ message: "Request failed" }` as the parse-failure fallback,
and an `ApiClientError` is thrown with
`errorData.message || "GET " + endpoint + " failed"`, the response status
and `errorData.errors`. -/
def apiClientGet (endpoint : String) (o : FetchOutcome) : GetOutcome :=
  match o with
  | .netFail e => .thrown e
  | .resp ok status body =>
      if ok then .success
      else
        let errMsg : Option String :=
          match body with
          | .parsed m _ => m
          | .unparseable => some "Request failed"
        let errFields : Option FieldErrors :=
          match body with
          | .parsed _ errs => errs
          | .unparseable => none
        let msg : String :=
          match errMsg with
          | some m => if m = "" then "GET " ++ endpoint ++ " failed" else m
          | none => "GET " ++ endpoint ++ " failed"
        .thrown (.apiClientError msg (some status) errFields)

/-! ## Auth store

`useAuthStore` in `src/src/store/authStore.ts` lines 56-85. -/

structure AuthUser where
  id : Option String
  name : Option String
  email : Option String
  deriving DecidableEq, Repr

structure AuthState where
  user : Option AuthUser
  token : Option String
  isAuthenticated : Bool
  hydrated : Bool
  deriving DecidableEq, Repr

/-- JavaScript `Boolean(token)` for `token : string | null`: true exactly
for a non-empty string. -/
def jsTruthyStr (t : Option String) : Bool :=
  match t with
  | some s => decide (s ≠ "")
  | none => false

/-- The store's initial state. -/
def initialAuthState : AuthState :=
  { user := none, token := none, isAuthenticated := false, hydrated := false }

/-- `setAuth` payload; destructuring defaults turn absent fields into
`null`, so both are plain options. -/
structure SetAuthPayload where
  user : Option AuthUser := none
  token : Option String := none
  deriving DecidableEq, Repr

/-- `setAuth` lines 64-69. -/
def setAuth (p : SetAuthPayload) (s : AuthState) : AuthState :=
  { s with
    user := p.user
    token := p.token
    isAuthenticated := jsTruthyStr p.token }

/-- `logout` lines 70-75. -/
def logout (s : AuthState) : AuthState :=
  { s with user := none, token := none, isAuthenticated := false }

/-- `setHydrated` line 63. -/
def setHydrated (v : Bool) (s : AuthState) : AuthState :=
  { s with hydrated := v }

/-- The auth invariant:
`isAuthenticated` holds exactly when the token is a non-empty string. -/
def authInvariant (s : AuthState) : Prop :=
  s.isAuthenticated = jsTruthyStr s.token

instance (s : AuthState) : Decidable (authInvariant s) := by
  unfold authInvariant
  infer_instance

/-! ## Dashboard data hook

`useDashboardData` in `src/unnamed/part_004` lines 27-154:
`fetchData`, `totalFines` aggregation and `payFine`. -/

/-- The slice of a `Book` record the dashboard reads:
`book?.fineAmount` (typed `number | undefined`, loosely read). -/
structure BookJs where
  fineAmount : JsVal
  deriving DecidableEq, Repr

/-- The slice of a `Borrow` record the dashboard reads: the loosely-typed
`(borrow as any)?.fine` and the optional nested book. -/
structure BorrowJs where
  id : String
  fine : JsVal
  book : Option BookJs
  deriving DecidableEq, Repr

/-- Profile record as the fallback chains read it; each field is an
optional string (absent encodes both `undefined` and `null`). -/
structure ProfileJs where
  fullName : Option String := none
  full_name : Option String := none
  name : Option String := none
  email : Option String := none
  studentId : Option String := none
  student_id : Option String := none
  id : Option String := none
  major : Option String := none
  department : Option String := none
  program : Option String := none
  deriving DecidableEq, Repr

/-- JavaScript `||` chaining over optional strings: keep the left value
when present and non-empty, else move right. -/
def jsOrOpt (a b : Option String) : Option String :=
  match a with
  | some s => if s = "" then b else some s
  | none => b

/-- `borrow.book?.fineAmount`: `undefined` when the book is absent. -/
def bookFineAmount (b : BorrowJs) : JsVal :=
  match b.book with
  | some bk => bk.fineAmount
  | none => .undefVal

/-- `(borrow as any)?.fine ?? borrow.book?.fineAmount ?? 0` (line 75). -/
def resolveFine (b : BorrowJs) : JsVal :=
  jsNullishOr b.fine (jsNullishOr (bookFineAmount b) (.num 0))

/-- One reduce step (line 76):
`sum + (Number.isFinite(fine) ? fine : 0)`. -/
def fineAddend (b : BorrowJs) : ℚ :=
  if jsIsFiniteNum (resolveFine b) then jsNumVal (resolveFine b) else 0

/-- `totalFines` (lines 74-77): reduce over the overdue collection. -/
def totalFines (overdueBorrows : List BorrowJs) : ℚ :=
  overdueBorrows.foldl (fun sum b => sum + fineAddend b) 0

/-- Modelled from the spec wording: the item's fine amount when it is a
finite number, and zero for a missing, NaN, non-numeric or otherwise
non-finite amount. -/
def fineAmountSpec (b : BorrowJs) : ℚ :=
  match resolveFine b with
  | .num x => x
  | _ => 0

/-- Modelled from the spec wording for the total-fines aggregate: the sum
over items of the item's fine amount, every non-finite or missing amount
contributing zero. -/
def totalFinesSpec (overdueBorrows : List BorrowJs) : ℚ :=
  (overdueBorrows.map fineAmountSpec).sum

/-- The `StudentDashboardData` record built by `fetchData` (lines 7-16 and
79-88). -/
structure StudentDashboardData where
  studentName : String
  studentId : String
  major : String
  totalBorrows : Nat
  activeBorrows : Nat
  totalFines : ℚ
  overdueBooks : List BorrowJs
  currentBorrows : List BorrowJs
  deriving DecidableEq, Repr

/-- The body of `fetchData`'s success path (lines 48-88): array-normalize
the raw responses, resolve the profile fallback chains, aggregate fines. -/
def buildDashboardData (profile : Option ProfileJs)
    (currentRaw overdueRaw : Option (List BorrowJs)) : StudentDashboardData :=
  let currentBorrows := currentRaw.getD []
  let overdueBorrows := overdueRaw.getD []
  let studentName :=
    (jsOrOpt (profile.bind ProfileJs.fullName)
      (jsOrOpt (profile.bind ProfileJs.full_name)
        (jsOrOpt (profile.bind ProfileJs.name)
          (profile.bind ProfileJs.email)))).getD "Student"
  let studentId :=
    (jsOrOpt (profile.bind ProfileJs.studentId)
      (jsOrOpt (profile.bind ProfileJs.student_id)
        (profile.bind ProfileJs.id))).getD "N/A"
  let major :=
    (jsOrOpt (profile.bind ProfileJs.major)
      (jsOrOpt (profile.bind ProfileJs.department)
        (profile.bind ProfileJs.program))).getD "Major not set"
  { studentName := studentName
    studentId := studentId
    major := major
    totalBorrows := currentBorrows.length
    activeBorrows := currentBorrows.length
    totalFines := totalFines overdueBorrows
    overdueBooks := overdueBorrows
    currentBorrows := currentBorrows }

/-- `DashboardState` (lines 18-25). -/
structure DashboardState where
  data : Option StudentDashboardData
  isLoading : Bool
  isRefreshing : Bool
  isPaying : Bool
  error : Option String
  payError : Option String
  deriving DecidableEq, Repr

/-- What the server answers to `fetchData`'s three requests: the profile
GET already has `.catch(() => null)` applied, so it is a plain option; the
current and overdue GETs either resolve (possibly with a non-array body,
hence the inner option) or reject. -/
structure ServerResp where
  profile : Option ProfileJs
  current : Except JsErr (Option (List BorrowJs))
  overdue : Except JsErr (Option (List BorrowJs))

/-- `fetchData` (lines 37-104) as a state transformer given the server's
answers.  `Promise.all` rejects with the first rejection; when both the
current and the overdue GET reject this model takes the current one's
error.  Rejections are caught inside `fetchData` itself (lines 95-103), so
it never throws. -/
def fetchData (srv : ServerResp) (st : DashboardState) : DashboardState :=
  let st0 := { st with error := none }
  match srv.current, srv.overdue with
  | .ok cur, .ok ovd =>
      { st0 with
        data := some (buildDashboardData srv.profile cur ovd)
        isLoading := false
        error := none }
  | .error e, _ =>
      { st0 with isLoading := false, error := some (handleApiError e).message }
  | .ok _, .error e =>
      { st0 with isLoading := false, error := some (handleApiError e).message }

/-- Resolution value of the `payFine` callback. -/
inductive PayResult where
  | success
  | failure (message : String)
  deriving DecidableEq, Repr

/-- `payFine` (lines 112-132).  The first argument is the outcome of the
`borrowService.payFine` POST: on success it carries the server state the
subsequent re-fetch observes (the server has confirmed the payment before
responding); on rejection the thrown value.  The `finally` clause clears
`isPaying` on both paths before the promise resolves. -/
def payFineRun (postOutcome : Except JsErr ServerResp)
    (st : DashboardState) : DashboardState × PayResult :=
  let st1 := { st with isPaying := true, payError := none }
  match postOutcome with
  | .ok srvPost =>
      let st2 := fetchData srvPost st1
      ({ st2 with isPaying := false }, .success)
  | .error e =>
      let ae := handleApiError e
      let st2 := { st1 with payError := some ae.message }
      ({ st2 with isPaying := false }, .failure ae.message)

/-! ## Book search hook

`searchBooks` in `src/unnamed/part_004` lines 199-204. -/

/-- A network request the model records instead of issuing. -/
inductive ApiRequest where
  | getSearch (q : String)
  deriving DecidableEq, Repr

/-- `String.prototype.trim`: strip leading and trailing whitespace
(modelled on `Char.isWhitespace`, which covers the ASCII whitespace the
queries exercise). -/
def jsTrim (s : String) : String :=
  ⟨((s.data.dropWhile Char.isWhitespace).reverse.dropWhile
      Char.isWhitespace).reverse⟩

/-- `searchBooks` (lines 199-204): a blank query short-circuits to `[]`
with no request; otherwise one search GET is issued.  `server` maps the
query to the response body; the first component of the result lists the
requests issued. -/
def searchBooks (query : String) (server : String → List String) :
    List ApiRequest × List String :=
  if jsTrim query = "" then ([], [])
  else ([.getSearch query], server query)

/-! ## Concrete fixture for the payFine staleness counterexample -/

/-- One overdue borrow carrying a 25-unit fine (pre-payment). -/
def staleCexOverdue : List BorrowJs := [⟨"b1", .num 25, none⟩]

/-- Pre-payment dashboard snapshot: one overdue book, 25 in fines. -/
def staleCexPre : StudentDashboardData :=
  buildDashboardData none (some []) (some staleCexOverdue)

/-- Post-payment dashboard snapshot: no overdue books, zero fines. -/
def staleCexPost : StudentDashboardData :=
  buildDashboardData none (some []) (some [])

/-- Settled dashboard state holding the pre-payment snapshot. -/
def staleCexState : DashboardState :=
  { data := some staleCexPre, isLoading := false, isRefreshing := false
    isPaying := false, error := none, payError := none }

/-- Server after a confirmed payment whose follow-up GETs then fail at the
transport level. -/
def staleCexServer : ServerResp :=
  { profile := none
    current := .error (.errorObj "Failed to fetch")
    overdue := .error (.errorObj "Failed to fetch") }

/-! ## Day-arithmetic lemmas -/

theorem ceilDivDay_mul (k : Int) : ceilDivDay (k * msPerDay) = k := by
  unfold ceilDivDay
  rw [← Int.neg_mul, Int.mul_fdiv_cancel _ (by decide : msPerDay ≠ 0)]
  simp

theorem daysLeftSpec_eq_day_sub (dueDate now : Int) :
    daysLeftSpec dueDate now = dueDate.fdiv msPerDay - now.fdiv msPerDay := by
  unfold daysLeftSpec midnightOf
  rw [← Int.sub_mul]
  exact ceilDivDay_mul _

/-! ## Fine-aggregation lemmas -/

theorem foldl_fineAddend (bs : List BorrowJs) (init : ℚ) :
    bs.foldl (fun sum b => sum + fineAddend b) init
      = init + (bs.map fineAddend).sum := by
  induction bs generalizing init with
  | nil => simp
  | cons b bs ih => simp [List.foldl_cons, ih, add_assoc]

theorem fineAddend_eq_spec (b : BorrowJs) : fineAddend b = fineAmountSpec b := by
  unfold fineAddend fineAmountSpec jsIsFiniteNum jsNumVal
  cases resolveFine b <;> simp

/-! ## Trim lemma -/

theorem jsTrim_eq_empty_iff (s : String) :
    jsTrim s = "" ↔ ∀ c ∈ s.data, c.isWhitespace := by
  unfold jsTrim
  constructor
  · intro h c hc
    have hl : ((s.data.dropWhile Char.isWhitespace).reverse.dropWhile
        Char.isWhitespace).reverse = [] := congrArg String.data h
    rw [List.reverse_eq_nil_iff, List.dropWhile_eq_nil_iff] at hl
    have hl2 : ∀ x ∈ s.data.dropWhile Char.isWhitespace, x.isWhitespace :=
      fun x hx => hl x (List.mem_reverse.mpr hx)
    have hsplit := List.takeWhile_append_dropWhile
      (p := Char.isWhitespace) (l := s.data)
    rw [← hsplit] at hc
    rcases List.mem_append.mp hc with h1 | h2
    · exact List.mem_takeWhile_imp h1
    · exact hl2 c h2
  · intro h
    have h1 : s.data.dropWhile Char.isWhitespace = [] :=
      List.dropWhile_eq_nil_iff.mpr h
    rw [h1]
    rfl

/-! ## Claim theorems -/

/-- C1 counterexample: for the due date one day before "now" (at midnight),
`getDaysLeft` from part 005 returns 0 where the claimed ceiling formula
gives -1, so the days-left computation does not return negative values for
overdue items. -/
theorem C1_getDaysLeft_clamp_cex :
    getDaysLeft (19729 * msPerDay) (19730 * msPerDay) = 0
    ∧ daysLeftSpec (19729 * msPerDay) (19730 * msPerDay) = -1
    ∧ getDaysLeft (19729 * msPerDay) (19730 * msPerDay)
        ≠ daysLeftSpec (19729 * msPerDay) (19730 * msPerDay) := by
  decide

/-- C1 amended: the dashboard `calculateDaysLeft` (part 001) returns
exactly `ceil((dueDate_midnight - today_midnight) / 1 day)` — equivalently
the calendar-day difference — with negative values for overdue items, and
the spec example D=2024-01-10, N=2024-01-08 midnight gives 2; but the
part 005 `getDaysLeft` clamps that value at zero, with overdue days given
by the separate `getDaysOverdue = max 0` of the negated difference. -/
theorem C1_days_left_amended :
    (∀ dueDate now : Int,
        calculateDaysLeft dueDate now = daysLeftSpec dueDate now
        ∧ calculateDaysLeft dueDate now
            = dueDate.fdiv msPerDay - now.fdiv msPerDay
        ∧ getDaysLeft dueDate now = max 0 (daysLeftSpec dueDate now)
        ∧ getDaysOverdue dueDate now = max 0 (-(daysLeftSpec dueDate now)))
    ∧ calculateDaysLeft (19732 * msPerDay) (19730 * msPerDay) = 2 := by
  constructor
  · intro dueDate now
    refine ⟨rfl, daysLeftSpec_eq_day_sub dueDate now, ?_, ?_⟩
    · rw [daysLeftSpec_eq_day_sub]
      rfl
    · rw [daysLeftSpec_eq_day_sub, neg_sub]
      rfl
  · decide

/-- C2 counterexample: `availabilityStyles` in BookDetailView substitutes
the default "Available" for a missing status, so a missing status
classifies as available, not on-hold, and the rendered label is the
canonical one rather than the original status string. -/
theorem C2_availability_default_cex :
    availabilityClassDetail none ≠ classifySpec none
    ∧ availabilityClassDetail none = .available
    ∧ classifySpec none = .onHold
    ∧ availabilityLabelDetail (some "Reserved until Friday") = "On Hold" := by
  decide

/-- C2 amended: classification is a case-insensitive substring match in
both components; `badgeClassByAvailability` (BookBrowsingPage) matches the
claim exactly, defaulting missing, empty and unmatched statuses to on-hold
and rendering the original label; `availabilityStyles` (BookDetailView)
agrees on non-empty statuses but treats a missing or empty status as
"Available" (hence available) and displays a canonical label. -/
theorem C2_availability_amended :
    (∀ a : Option String, badgeClassByAvailability a = classifySpec a)
    ∧ (∀ s : String, s ≠ "" →
        availabilityClassDetail (some s) = classifySpec (some s))
    ∧ availabilityClassDetail none = .available
    ∧ availabilityClassDetail (some "") = .available
    ∧ (∀ s : String, browseDisplayedLabel (some s) = s)
    ∧ (∀ a : Option String,
        availabilityLabelDetail a = "Available"
        ∨ availabilityLabelDetail a = "Checked Out"
        ∨ availabilityLabelDetail a = "On Hold") := by
  refine ⟨?_, ?_, by decide, by decide, fun s => rfl, ?_⟩
  · intro a
    cases a with
    | none => rfl
    | some s =>
        by_cases h : s = ""
        · subst h
          rfl
        · simp [badgeClassByAvailability, classifySpec, jsOrStr, h]
  · intro s h
    simp [availabilityClassDetail, classifySpec, jsOrStr, h]
  · intro a
    unfold availabilityLabelDetail
    cases availabilityClassDetail a <;> simp

/-- C2 witness: the amended theorem applied to the spec's concrete
statuses; the substring match is case-insensitive on each of them. -/
theorem C2_availability_amended_witness :
    badgeClassByAvailability (some "AVAILABLE")
      = classifySpec (some "AVAILABLE")
    ∧ availabilityClassDetail (some "available now")
        = classifySpec (some "available now")
    ∧ badgeClassByAvailability (some "checked out") = .checkedOut
    ∧ classifySpec (some "Available") = .available :=
  ⟨C2_availability_amended.1 (some "AVAILABLE"),
   C2_availability_amended.2.1 "available now" (by decide),
   by decide, by decide⟩

/-- C3 counterexample: a payment the server confirms whose follow-up
re-fetch GETs fail at the transport level — `payFine` still resolves
successfully while the cached dashboard data keeps the stale pre-payment
snapshot (one overdue book, 25 in fines) rather than the post-payment
one. -/
theorem C3_payFine_stale_cex :
    (payFineRun (.ok staleCexServer) staleCexState).2 = .success
    ∧ (payFineRun (.ok staleCexServer) staleCexState).1.data
        = some staleCexPre
    ∧ some staleCexPre ≠ some staleCexPost := by
  refine ⟨rfl, rfl, ?_⟩
  simp [staleCexPre, staleCexPost, staleCexOverdue, buildDashboardData]

/-- C3 amended: when `payFine`'s POST succeeds and the awaited re-fetch
GETs succeed, the promise resolves successfully and the cached data equals
the post-payment server snapshot, independent of whatever was cached
before; when the re-fetch GETs fail, `payFine` still resolves successfully
and the prior cached data is retained. -/
theorem C3_payFine_refetch_amended :
    ∀ (prof : Option ProfileJs) (cur ovd : Option (List BorrowJs))
      (st st' : DashboardState),
      (payFineRun (.ok ⟨prof, .ok cur, .ok ovd⟩) st).2 = .success
      ∧ (payFineRun (.ok ⟨prof, .ok cur, .ok ovd⟩) st).1.data
          = some (buildDashboardData prof cur ovd)
      ∧ (payFineRun (.ok ⟨prof, .ok cur, .ok ovd⟩) st).1.data
          = (payFineRun (.ok ⟨prof, .ok cur, .ok ovd⟩) st').1.data
      ∧ (∀ (e : JsErr) (ovdR : Except JsErr (Option (List BorrowJs))),
          (payFineRun (.ok ⟨prof, .error e, ovdR⟩) st).1.data = st.data
          ∧ (payFineRun (.ok ⟨prof, .error e, ovdR⟩) st).2 = .success) := by
  intro prof cur ovd st st'
  exact ⟨rfl, rfl, rfl, fun e ovdR => ⟨rfl, rfl⟩⟩

/-- C4: the total-fines aggregate equals the sum over items of the item's
resolved fine amount, with missing, NaN, non-numeric and non-finite
amounts contributing zero; the spec's example list [12.5, undefined,
"bad"] totals 12.5. -/
theorem C4_totalFines_confirmed :
    (∀ bs : List BorrowJs, totalFines bs = totalFinesSpec bs)
    ∧ totalFines [⟨"a", .num (25 / 2), none⟩, ⟨"b", .undefVal, none⟩,
        ⟨"c", .str "bad", none⟩] = 25 / 2 := by
  constructor
  · intro bs
    unfold totalFines totalFinesSpec
    rw [foldl_fineAddend, funext fineAddend_eq_spec]
    simp
  · simp [totalFines, fineAddend, resolveFine, jsNullishOr, bookFineAmount,
      jsIsFiniteNum, jsNumVal]

/-- C5 counterexample: a transport failure rejects with a TypeError whose
message is "Failed to fetch"; the surfaced ApiError keeps that message
rather than the generic "unexpected error" text (it does carry no status
code). -/
theorem C5_transport_message_cex :
    apiClientGet "/api/borrow/current" (.netFail (.errorObj "Failed to fetch"))
      = .thrown (.errorObj "Failed to fetch")
    ∧ (handleApiError (.errorObj "Failed to fetch")).message
        ≠ "An unexpected error occurred"
    ∧ (handleApiError (.errorObj "Failed to fetch")).statusCode = none := by
  exact ⟨rfl, by decide, rfl⟩

/-- C5 amended: on a transport failure the rejection propagates unchanged
through `apiClient.get` and the surfaced ApiError carries no status code;
its message is the transport error's own message when that is a non-empty
Error message, and the generic "An unexpected error occurred" text only
for an empty message or a non-Error thrown value. -/
theorem C5_transport_error_amended :
    ∀ endpoint m : String,
      apiClientGet endpoint (.netFail (.errorObj m)) = .thrown (.errorObj m)
      ∧ (handleApiError (.errorObj m)).statusCode = none
      ∧ (handleApiError (.errorObj m)).errors = none
      ∧ (handleApiError (.errorObj m)).message
          = (if m = "" then "An unexpected error occurred" else m)
      ∧ (handleApiError .nonError).message = "An unexpected error occurred"
      ∧ (handleApiError .nonError).statusCode = none
      ∧ (∀ e : JsErr, apiClientGet endpoint (.netFail e) = .thrown e) := by
  intro endpoint m
  exact ⟨rfl, rfl, rfl, rfl, rfl, rfl, fun e => rfl⟩

/-- C6: on every non-2xx response `apiClient.get` throws an ApiClientError
carrying the response's status code and the parsed per-field error map;
the message is the one parsed from the JSON error body when present and
non-empty, and a fallback ("Request failed") when the body cannot be
parsed as JSON; `handleApiError` passes all three fields through. -/
theorem C6_non2xx_error_confirmed :
    ∀ (endpoint : String) (status : Nat) (msg : String)
      (errs : Option FieldErrors),
      apiClientGet endpoint (.resp false status (.parsed (some msg) errs))
        = .thrown (.apiClientError
            (if msg = "" then "GET " ++ endpoint ++ " failed" else msg)
            (some status) errs)
      ∧ apiClientGet endpoint (.resp false status (.parsed none errs))
          = .thrown (.apiClientError ("GET " ++ endpoint ++ " failed")
              (some status) errs)
      ∧ apiClientGet endpoint (.resp false status .unparseable)
          = .thrown (.apiClientError "Request failed" (some status) none)
      ∧ (∀ (m : String) (c : Option Nat) (e : Option FieldErrors),
          handleApiError (.apiClientError m c e) = ⟨m, e, c⟩) := by
  intro endpoint status msg errs
  refine ⟨rfl, rfl, ?_, fun m c e => rfl⟩
  simp [apiClientGet]

/-- C7: a failing `payFine` mutation leaves the cached dashboard data and
the `error`, `isLoading` and `isRefreshing` fields untouched; it only sets
`payError` to the normalized message and clears `isPaying`, and the
promise resolves with the failure result. -/
theorem C7_payFine_error_frame_confirmed :
    ∀ (e : JsErr) (st : DashboardState),
      (payFineRun (.error e) st).1.data = st.data
      ∧ (payFineRun (.error e) st).1.error = st.error
      ∧ (payFineRun (.error e) st).1.isLoading = st.isLoading
      ∧ (payFineRun (.error e) st).1.isRefreshing = st.isRefreshing
      ∧ (payFineRun (.error e) st).1.payError
          = some (handleApiError e).message
      ∧ (payFineRun (.error e) st).1.isPaying = false
      ∧ (payFineRun (.error e) st).2
          = .failure (handleApiError e).message := by
  intro e st
  exact ⟨rfl, rfl, rfl, rfl, rfl, rfl, rfl⟩

/-- C8 counterexample: the source reads the clock ambiently via
`new Date()` inside `calculateDaysLeft` and `greeting`, so two runs with
identical explicit inputs (the same due date; `greeting` has no explicit
input at all) but different ambient instants produce different outputs. -/
theorem C8_ambient_clock_cex :
    calculateDaysLeft 0 0 ≠ calculateDaysLeft 0 (5 * msPerDay)
    ∧ greeting (8 * msPerHour) ≠ greeting (20 * msPerHour) := by
  decide

/-- C8 amended: each derived-state computation is deterministic in its
explicit inputs plus the ambient clock instant — `calculateDaysLeft`
depends on the clock only through its calendar-day index and `greeting`
only through its hour — but the source captures that instant ambiently via
`new Date()` inside the functions instead of taking a "now" parameter. -/
theorem C8_determinism_amended :
    (∀ dueDate n₁ n₂ : Int, n₁.fdiv msPerDay = n₂.fdiv msPerDay →
        calculateDaysLeft dueDate n₁ = calculateDaysLeft dueDate n₂)
    ∧ (∀ n₁ n₂ : Int, hourOfMs n₁ = hourOfMs n₂ →
        greeting n₁ = greeting n₂) := by
  constructor
  · intro dueDate n₁ n₂ h
    unfold calculateDaysLeft midnightOf
    rw [h]
  · intro n₁ n₂ h
    unfold greeting
    rw [h]

/-- C8 witness: the amended determinism theorem at concrete instants —
two clock readings on the same day give the same days-left, and two
readings within the same hour give the same greeting. -/
theorem C8_determinism_amended_witness :
    calculateDaysLeft (19732 * msPerDay) (19730 * msPerDay)
      = calculateDaysLeft (19732 * msPerDay) (19730 * msPerDay + msPerHour)
    ∧ greeting 0 = greeting 60000 :=
  ⟨C8_determinism_amended.1 _ _ _ (by decide),
   C8_determinism_amended.2 _ _ (by decide)⟩

/-- C9: the auth store keeps `isAuthenticated` equal to the truthiness of
the stored token: the initial state satisfies the invariant, `setAuth`
re-establishes it from the payload token (non-empty string ⇒ true),
`logout` clears user, token and `isAuthenticated` together, and
`setHydrated` changes none of the three. -/
theorem C9_auth_invariant_confirmed :
    authInvariant initialAuthState
    ∧ (∀ (p : SetAuthPayload) (s : AuthState),
        authInvariant (setAuth p s)
        ∧ (setAuth p s).isAuthenticated = jsTruthyStr p.token
        ∧ (setAuth p s).token = p.token
        ∧ (setAuth p s).user = p.user
        ∧ (setAuth p s).hydrated = s.hydrated)
    ∧ (∀ s : AuthState,
        (logout s).user = none
        ∧ (logout s).token = none
        ∧ (logout s).isAuthenticated = false
        ∧ authInvariant (logout s)
        ∧ (logout s).hydrated = s.hydrated)
    ∧ (∀ (v : Bool) (s : AuthState),
        (setHydrated v s).user = s.user
        ∧ (setHydrated v s).token = s.token
        ∧ (setHydrated v s).isAuthenticated = s.isAuthenticated
        ∧ (setHydrated v s).hydrated = v) := by
  refine ⟨rfl, fun p s => ⟨rfl, rfl, rfl, rfl, rfl⟩,
    fun s => ⟨rfl, rfl, rfl, rfl, rfl⟩,
    fun v s => ⟨rfl, rfl, rfl, rfl⟩⟩

/-- C10: a query that is empty or all whitespace makes `searchBooks`
return the empty list with no request issued; a query containing a
non-whitespace character issues exactly the one search request. -/
theorem C10_searchBooks_confirmed :
    ∀ (server : String → List String) (q : String),
      ((∀ c ∈ q.data, c.isWhitespace) → searchBooks q server = ([], []))
      ∧ ((∃ c ∈ q.data, ¬ c.isWhitespace)
          → searchBooks q server = ([.getSearch q], server q)) := by
  intro server q
  constructor
  · intro h
    unfold searchBooks
    rw [if_pos ((jsTrim_eq_empty_iff q).mpr h)]
  · rintro ⟨c, hc, hw⟩
    unfold searchBooks
    rw [if_neg (fun h => hw ((jsTrim_eq_empty_iff q).mp h c hc))]

/-- C10 witness: the theorem at a whitespace-only query (no request, empty
result) and at a real query (one search request). -/
theorem C10_searchBooks_witness :
    searchBooks "   " (fun _ => []) = ([], [])
    ∧ searchBooks "harry" (fun _ => []) = ([.getSearch "harry"], []) :=
  ⟨(C10_searchBooks_confirmed (fun _ => []) "   ").1 (by decide),
   (C10_searchBooks_confirmed (fun _ => []) "harry").2 (by decide)⟩

end PortLib
